import Mathlib

/-!
Shallow embedding of the ggml-converter-service pipeline
(src/ggml-converter-service/src/main.rs) and proofs about its behaviour.

Filesystem paths are modelled as lists of components, absolute from the
root of the modelled filesystem.  The process-wide current directory
(`std::env::current_dir`) is part of the state: the Rust code spawns
external commands without setting a working directory (so they inherit the
process cwd), while the paths it consults afterwards are built from
`curr_dir.parent()`.  External commands are black boxes: an oracle `Exec`
decides, per invocation (indexed by a clock in the state) and per command,
whether that command exits successfully; a successful command applies its
documented effect on the filesystem, a failed one leaves it unchanged.
Every invocation is recorded in a trace together with the filesystem as it
was immediately before the invocation and the success bit.
-/

namespace GgmlConverter

abbrev FPath := List String

abbrev Fs := List FPath

/-- Membership of a path in the modelled filesystem (`Path::exists`). -/
def pathExists : Fs → FPath → Bool
  | [], _ => false
  | q :: rest, p => if q = p then true else pathExists rest p

/-- Create a filesystem entry (`std::fs::create_dir`, or a tool writing a file). -/
def fsAdd (fs : Fs) (p : FPath) : Fs :=
  if pathExists fs p then fs else p :: fs

/-- Remove a single entry (`std::fs::remove_file`). -/
def fsRemoveFile : Fs → FPath → Fs
  | [], _ => []
  | q :: rest, p => if q = p then fsRemoveFile rest p else q :: fsRemoveFile rest p

/-- Remove an entry and everything below it (`rm -rf`). -/
def fsRemoveTree : Fs → FPath → Fs
  | [], _ => []
  | q :: rest, p => if p.isPrefixOf q then fsRemoveTree rest p else q :: fsRemoveTree rest p

/-- Rename `src` to `dst`, carrying the entries below it along (`mv`). -/
def rebasePath (src dst q : FPath) : FPath :=
  if src.isPrefixOf q then dst ++ q.drop src.length else q

def fsRename (fs : Fs) (src dst : FPath) : Fs :=
  fs.map (rebasePath src dst)

/-- Split a string at every slash character (Rust `str::split('/')`). -/
def splitSlashAux : List Char → List Char → List String
  | [], acc => [String.mk acc.reverse]
  | c :: cs, acc =>
    if c = '/' then String.mk acc.reverse :: splitSlashAux cs []
    else splitSlashAux cs (c :: acc)

def splitSlash (s : String) : List String := splitSlashAux s.toList []

/-- `x.split('/').collect::<Vec<_>>()[1]`.  Every `ModelType` display string
contains exactly one slash, so index 1 is always present; the Rust indexing
would panic otherwise. -/
def secondSeg (s : String) : String := (splitSlash s).getD 1 ""

/-- The directory created by `git clone <url>`: the last path segment of the url. -/
def lastSeg (s : String) : String := (splitSlash s).getLastD ""

inductive ModelType
  | Llama2_7b
  | Llama2Chat7b
  | Llama2Chinese7b
deriving DecidableEq

/-- `impl Display for ModelType` (identical to `From<ModelType> for String`). -/
def ModelType.toString : ModelType → String
  | .Llama2_7b => "meta-llama/Llama-2-7b-hf"
  | .Llama2Chat7b => "meta-llama/Llama-2-7b-chat-hf"
  | .Llama2Chinese7b => "LinkSoul/Chinese-Llama-2-7b"

inductive QuantInfo
  | Q4
  | Q8
  | F16
  | F32
deriving DecidableEq

/-- `impl Display for QuantInfo`. -/
def QuantInfo.toString : QuantInfo → String
  | .Q4 => "q4_0"
  | .Q8 => "q8_0"
  | .F16 => "f16"
  | .F32 => "f32"

structure ModelInfo where
  name : ModelType
  quant_info : QuantInfo
deriving DecidableEq

/-- The seed contents of the `MODELS` static (a `HashMap` in the source,
modelled as an association list with distinct keys). -/
def MODELS : List (String × String) :=
  [("meta-llama/Llama-2-7b-hf", "https://huggingface.co/meta-llama/Llama-2-7b-hf"),
   ("meta-llama/Llama-2-7b-chat-hf", "https://huggingface.co/meta-llama/Llama-2-7b-chat-hf")]

/-- `HashMap::get` on the association-list model of the registry. -/
def registryGet (r : List (String × String)) (k : String) : Option String :=
  match r with
  | [] => none
  | kv :: rest => if kv.1 = k then some kv.2 else registryGet rest k

def CODE_BASE : String := "d2a4366"

def llamaTarball : String := "master-" ++ CODE_BASE ++ ".tar.gz"

def llamaArchiveUrl : String :=
  "https://github.com/ggerganov/llama.cpp/archive/refs/tags/" ++ llamaTarball

def extractedDirName : String := "llama.cpp-master-" ++ CODE_BASE

/-- The external commands the service spawns. -/
inductive Cmd
  | wget (url : String)
  | tarExtract (archive : String)
  | rmArchive (target : String)
  | mvDir (src dst : String)
  | make
  | quantizeHelp
  | gitClone (url : String)
  | pythonConvert (modelRepoDir outfile : FPath)
  | quantizeRun (model outfile : FPath) (tag : String)
deriving DecidableEq

/-- One recorded external invocation: the command, the filesystem immediately
before the invocation, and whether it exited successfully. -/
structure Ev where
  cmd : Cmd
  fsAt : Fs
  ok : Bool
deriving DecidableEq

/-- Oracle deciding the exit status of the n-th spawned command. -/
abbrev Exec := Nat → Cmd → Bool

structure St where
  fs : Fs
  cwd : FPath
  registry : List (String × String)
  clock : Nat
deriving DecidableEq

/-- Effect of a successfully exiting command on the filesystem, given the
cwd it was spawned with.  Only the entries the service later consults are
materialised (for `tar`, the archive member `convert.py` inside the
extracted directory). -/
def cmdEffect (c : Cmd) (cwd : FPath) (fs : Fs) : Fs :=
  match c with
  | .wget _ => fsAdd fs (cwd ++ [llamaTarball])
  | .tarExtract _ =>
      fsAdd (fsAdd fs (cwd ++ [extractedDirName])) (cwd ++ [extractedDirName, "convert.py"])
  | .rmArchive t => fsRemoveTree fs (cwd ++ [t])
  | .mvDir src dst => fsRename fs (cwd ++ [src]) (cwd ++ [dst])
  | .make => fsAdd fs (cwd ++ ["quantize"])
  | .quantizeHelp => fs
  | .gitClone url => fsAdd fs (cwd ++ [lastSeg url])
  | .pythonConvert _ out => fsAdd fs out
  | .quantizeRun _ out _ => fsAdd fs out

/-- Spawn one external command: consult the oracle at the current clock,
apply the effect on success, record the event. -/
def invoke (exec : Exec) (s : St) (c : Cmd) : St × Bool × Ev :=
  let ok := exec s.clock c
  ({ s with fs := if ok then cmdEffect c s.cwd s.fs else s.fs, clock := s.clock + 1 },
   ok, ⟨c, s.fs, ok⟩)

/-- The ways a request handler can abort: a propagated `std::io` error,
the `ok_or(..)?` registry miss, or one of the three `panic!` sites. -/
inductive PErr
  | ioErr (msg : String)
  | registryMiss (name : String)
  | panicNoLlamaCpp
  | panicNoConverter
  | panicNoQuantizer
deriving DecidableEq

/-- Result of running one of the service's operations: the value returned
(or the error/panic that aborted it), the final state, and the trace of
external invocations. -/
structure RunOut (α : Type) where
  result : Except PErr α
  state : St
  trace : List Ev

/-- `download_and_build_llama_cpp`.  `curr_dir` is the process cwd;
`llama_cpp_dir` is built from `curr_dir.parent()`, while the spawned
`wget`/`tar`/`rm`/`mv` inherit the cwd itself, exactly as in the source.
Exit statuses of the download commands are printed but never checked; the
only check is `Path::new("llama.cpp").exists()` (cwd-relative).  The build
step changes into `llama_cpp_dir` (an io error if it does not exist), runs
`make`, then spawns `./quantize --help` (an io error if the binary is
absent; its exit status is printed but not checked), and changes back. -/
def download_and_build_llama_cpp (exec : Exec) (s : St) : RunOut FPath :=
  let curr_dir := s.cwd
  let llama_cpp_dir := curr_dir.dropLast ++ ["llama.cpp"]
  let dl :=
    if pathExists s.fs llama_cpp_dir then (s, ([] : List Ev), (none : Option PErr))
    else
      let r1 := invoke exec s (Cmd.wget llamaArchiveUrl)
      let r2 := invoke exec r1.1 (Cmd.tarExtract llamaTarball)
      let r3 := invoke exec r2.1 (Cmd.rmArchive llamaTarball)
      let r4 := invoke exec r3.1 (Cmd.mvDir extractedDirName "llama.cpp")
      let tr := [r1.2.2, r2.2.2, r3.2.2, r4.2.2]
      if pathExists r4.1.fs (curr_dir ++ ["llama.cpp"]) then (r4.1, tr, none)
      else (r4.1, tr, some PErr.panicNoLlamaCpp)
  match dl.2.2 with
  | some e => ⟨.error e, dl.1, dl.2.1⟩
  | none =>
    let s1 := dl.1
    let tr1 := dl.2.1
    let quantizer := llama_cpp_dir ++ ["quantize"]
    if pathExists s1.fs quantizer then ⟨.ok llama_cpp_dir, s1, tr1⟩
    else if pathExists s1.fs llama_cpp_dir then
      let s2 : St := { s1 with cwd := llama_cpp_dir }
      let r5 := invoke exec s2 Cmd.make
      if pathExists r5.1.fs (llama_cpp_dir ++ ["quantize"]) then
        let r6 := invoke exec r5.1 Cmd.quantizeHelp
        if pathExists r6.1.fs curr_dir then
          ⟨.ok llama_cpp_dir, { r6.1 with cwd := curr_dir }, tr1 ++ [r5.2.2, r6.2.2]⟩
        else ⟨.error (PErr.ioErr "set_current_dir"), r6.1, tr1 ++ [r5.2.2, r6.2.2]⟩
      else ⟨.error (PErr.ioErr "spawn quantize help"), r5.1, tr1 ++ [r5.2.2]⟩
    else ⟨.error (PErr.ioErr "set_current_dir"), s1, tr1⟩

/-- The `while !success && retries < 3` clone loop, with fuel
`3 - retries`.  A successful clone stops the loop; a failure consumes one
retry. -/
def cloneLoop (exec : Exec) (url : String) : Nat → St → St × List Ev × Bool
  | 0, s => (s, [], false)
  | Nat.succ fuel, s =>
    let r := invoke exec s (Cmd.gitClone url)
    if r.2.1 then (r.1, [r.2.2], true)
    else
      let rest := cloneLoop exec url fuel r.1
      (rest.1, r.2.2 :: rest.2.1, rest.2.2)

/-- `download_llama2_models`.  Creates the models directory if absent,
skips everything when the model repo directory exists, otherwise looks the
model up in the registry (`ok_or(..)?` on a miss) and runs the clone loop.
Note that the function returns `Ok(model_repo_dir)` whether or not any
clone attempt succeeded. -/
def download_llama2_models (exec : Exec) (s : St) (mi : ModelInfo) : RunOut FPath :=
  let curr_dir := s.cwd
  let models_dir := curr_dir.dropLast ++ ["models"]
  let s1 := if pathExists s.fs models_dir then s else { s with fs := fsAdd s.fs models_dir }
  let model_repo_dir := models_dir ++ [secondSeg mi.name.toString]
  if pathExists s1.fs model_repo_dir then ⟨.ok model_repo_dir, s1, []⟩
  else
    match registryGet s1.registry mi.name.toString with
    | none => ⟨.error (PErr.registryMiss mi.name.toString), s1, []⟩
    | some url =>
      let r := cloneLoop exec url 3 s1
      ⟨.ok model_repo_dir, r.1, r.2.1⟩

/-- `convert_to_ggml`.  Removes a stale outfile, panics if `convert.py` is
missing, otherwise invokes the converter; a non-zero exit is only printed
and the function returns `Ok(())` regardless. -/
def convert_to_ggml (exec : Exec) (s : St)
    (llama_cpp_dir model_repo_dir outfile : FPath) : RunOut Unit :=
  let converter := llama_cpp_dir ++ ["convert.py"]
  let s1 := if pathExists s.fs outfile then { s with fs := fsRemoveFile s.fs outfile } else s
  if pathExists s1.fs converter then
    let r := invoke exec s1 (Cmd.pythonConvert model_repo_dir outfile)
    ⟨.ok (), r.1, [r.2.2]⟩
  else ⟨.error PErr.panicNoConverter, s1, []⟩

/-- `quantize_ggml`, same shape as the converter. -/
def quantize_ggml (exec : Exec) (s : St)
    (llama_cpp_dir model : FPath) (quant_info : QuantInfo) (outfile : FPath) : RunOut Unit :=
  let quantizer := llama_cpp_dir ++ ["quantize"]
  let s1 := if pathExists s.fs outfile then { s with fs := fsRemoveFile s.fs outfile } else s
  if pathExists s1.fs quantizer then
    let r := invoke exec s1 (Cmd.quantizeRun model outfile quant_info.toString)
    ⟨.ok (), r.1, [r.2.2]⟩
  else ⟨.error PErr.panicNoQuantizer, s1, []⟩

structure ConversionResult where
  download_url : String
deriving DecidableEq

def pathStr (p : FPath) : String := String.intercalate "/" p

/-- The POST `/json` handler: toolchain, fetch, convert, quantize, in
sequence; every `.unwrap()` on an error (or a panic inside a stage) aborts
the request. -/
def json_request (exec : Exec) (s : St) (model_info : ModelInfo) : RunOut ConversionResult :=
  let rT := download_and_build_llama_cpp exec s
  match rT.result with
  | .error e => ⟨.error e, rT.state, rT.trace⟩
  | .ok llama_cpp_dir =>
    let rF := download_llama2_models exec rT.state model_info
    match rF.result with
    | .error e => ⟨.error e, rF.state, rT.trace ++ rF.trace⟩
    | .ok model_repo_dir =>
      let curr_dir := rF.state.cwd
      let outputs_dir := curr_dir.dropLast ++ ["outputs"]
      let s3 := if pathExists rF.state.fs outputs_dir then rF.state
                else { rF.state with fs := fsAdd rF.state.fs outputs_dir }
      let out_filename := secondSeg model_info.name.toString ++ "-ggml." ++ "bin"
      let outfile := outputs_dir ++ [out_filename]
      let rC := convert_to_ggml exec s3 llama_cpp_dir model_repo_dir outfile
      match rC.result with
      | .error e => ⟨.error e, rC.state, rT.trace ++ rF.trace ++ rC.trace⟩
      | .ok _ =>
        let quantized_filename :=
          secondSeg model_info.name.toString ++ "-ggml-" ++
            model_info.quant_info.toString ++ "." ++ "bin"
        let quantized_outfile := outputs_dir ++ [quantized_filename]
        let rQ := quantize_ggml exec rC.state llama_cpp_dir outfile
          model_info.quant_info quantized_outfile
        match rQ.result with
        | .error e => ⟨.error e, rQ.state, rT.trace ++ rF.trace ++ rC.trace ++ rQ.trace⟩
        | .ok _ =>
          ⟨.ok ⟨pathStr quantized_outfile⟩, rQ.state,
            rT.trace ++ rF.trace ++ rC.trace ++ rQ.trace⟩

/-! Trace observations. -/

def isGitClone : Cmd → Bool
  | .gitClone _ => true
  | _ => false

def isPythonConvert : Cmd → Bool
  | .pythonConvert _ _ => true
  | _ => false

def isQuantizeRun : Cmd → Bool
  | .quantizeRun _ _ _ => true
  | _ => false

def isQuantizeHelp : Cmd → Bool
  | .quantizeHelp => true
  | _ => false

def isWget : Cmd → Bool
  | .wget _ => true
  | _ => false

/-- Number of invocations in a trace whose command satisfies `p`. -/
def countCmd (tr : List Ev) (p : Cmd → Bool) : Nat :=
  (tr.filter (fun e => p e.cmd)).length

/-- Number of invocations satisfying `p` that exited unsuccessfully. -/
def countFailed (tr : List Ev) (p : Cmd → Bool) : Nat :=
  (tr.filter (fun e => p e.cmd && !e.ok)).length

/-! Concrete scenarios. -/

/-- The directory the service process runs in. -/
def svcDir : FPath := ["ggml-converter-service"]

/-- A clean filesystem: only the service's own working directory exists. -/
def cleanSt : St := { fs := [svcDir], cwd := svcDir, registry := MODELS, clock := 0 }

/-- A filesystem on which a previous run has left the toolchain (with its
`convert.py` and built `quantize`), the Llama-2-7b model directory, and the
outputs directory, all under the parent of the service directory. -/
def warmFs : Fs :=
  [svcDir, ["llama.cpp"], ["llama.cpp", "convert.py"], ["llama.cpp", "quantize"],
   ["models"], ["models", "Llama-2-7b-hf"], ["outputs"]]

def warmSt : St := { fs := warmFs, cwd := svcDir, registry := MODELS, clock := 0 }

def mi7b : ModelInfo := ⟨ModelType.Llama2_7b, QuantInfo.Q4⟩

def miChinese : ModelInfo := ⟨ModelType.Llama2Chinese7b, QuantInfo.Q4⟩

/-- Every external command exits successfully. -/
def allOk : Exec := fun _ _ => true

/-- Every external command fails. -/
def allFail : Exec := fun _ _ => false

/-- Only the conversion tool fails. -/
def convertFails : Exec := fun _ c => !(isPythonConvert c)

deriving instance DecidableEq for Except

/-! Basic lemmas about the filesystem model. -/

theorem pathExists_cons (q : FPath) (fs : Fs) (p : FPath) :
    pathExists (q :: fs) p = if q = p then true else pathExists fs p := rfl

theorem pathExists_fsAdd_of_true {fs : Fs} {p : FPath} (q : FPath)
    (h : pathExists fs p = true) : pathExists (fsAdd fs q) p = true := by
  unfold fsAdd
  split
  · exact h
  · rw [pathExists_cons]
    split
    · rfl
    · exact h

theorem pathExists_fsAdd_ne {p q : FPath} (fs : Fs) (h : ¬ q = p) :
    pathExists (fsAdd fs q) p = pathExists fs p := by
  unfold fsAdd
  split
  · rfl
  · rw [pathExists_cons, if_neg h]

theorem pathExists_fsRemoveFile_self (fs : Fs) (p : FPath) :
    pathExists (fsRemoveFile fs p) p = false := by
  induction fs with
  | nil => rfl
  | cons q rest ih =>
    unfold fsRemoveFile
    split
    · exact ih
    · next h => rw [pathExists_cons, if_neg h]; exact ih

theorem pathExists_fsRemoveFile_ne {p q : FPath} (fs : Fs) (h : ¬ p = q) :
    pathExists (fsRemoveFile fs q) p = pathExists fs p := by
  induction fs with
  | nil => rfl
  | cons r rest ih =>
    unfold fsRemoveFile
    split
    · next hr =>
      rw [ih, pathExists_cons, if_neg (by intro hrp; exact h (hrp ▸ hr))]
    · next hr =>
      rw [pathExists_cons, pathExists_cons, ih]

/-! Inequality of the paths the service distinguishes. -/

theorem append_singleton_ne_self (a : List String) (x : String) : ¬ (a ++ [x] = a) := by
  intro hc
  have hlen := congrArg List.length hc
  simp at hlen

theorem append_pair_ne_fst (a : List String) {x1 y1 x2 y2 : String} (h : ¬ x1 = x2) :
    ¬ (a ++ [x1] ++ [y1] = a ++ [x2] ++ [y2]) := by
  intro hc
  rw [List.append_assoc, List.append_assoc] at hc
  have h2 := List.append_cancel_left hc
  injection h2 with h3 _
  exact h h3

theorem append_arg_ne (a : List String) {xs ys : List String} (h : ¬ xs = ys) :
    ¬ (a ++ xs = a ++ ys) :=
  fun hc => h (List.append_cancel_left hc)

/-! Stage-level lemmas. -/

/-- Toolchain stage with the toolchain directory and built binary present:
nothing is spawned, the toolchain directory is returned. -/
theorem dandb_skip (exec : Exec) (s : St)
    (hl : pathExists s.fs (s.cwd.dropLast ++ ["llama.cpp"]) = true)
    (hq : pathExists s.fs (s.cwd.dropLast ++ ["llama.cpp", "quantize"]) = true) :
    download_and_build_llama_cpp exec s =
      ⟨.ok (s.cwd.dropLast ++ ["llama.cpp"]), s, []⟩ := by
  simp [download_and_build_llama_cpp, hl, hq]

/-- Fetch stage with the model repo directory (and the models directory)
present: nothing is spawned, the directory is returned unconditionally. -/
theorem dllm_skip (exec : Exec) (s : St) (mi : ModelInfo)
    (hm : pathExists s.fs (s.cwd.dropLast ++ ["models"]) = true)
    (hr : pathExists s.fs (s.cwd.dropLast ++ ["models", secondSeg mi.name.toString]) = true) :
    download_llama2_models exec s mi =
      ⟨.ok (s.cwd.dropLast ++ ["models", secondSeg mi.name.toString]), s, []⟩ := by
  simp [download_llama2_models, hm, hr]

/-- Fetch stage with the model repo directory present (models directory
arbitrary): result and trace. -/
theorem dllm_skip_parts (exec : Exec) (s : St) (mi : ModelInfo)
    (hr : pathExists s.fs (s.cwd.dropLast ++ ["models", secondSeg mi.name.toString]) = true) :
    (download_llama2_models exec s mi).result =
      .ok (s.cwd.dropLast ++ ["models", secondSeg mi.name.toString]) ∧
    (download_llama2_models exec s mi).trace = [] := by
  cases hm : pathExists s.fs (s.cwd.dropLast ++ ["models"]) with
  | true => simp [download_llama2_models, hm, hr]
  | false => simp [download_llama2_models, hm, pathExists_fsAdd_of_true _ hr]

/-- The clone loop under an oracle that fails every clone of `url`:
`fuel` failed attempts are recorded and the filesystem is untouched. -/
theorem cloneLoop_allFail (exec : Exec) (url : String)
    (hfail : ∀ n, exec n (Cmd.gitClone url) = false) (fuel : Nat) :
    ∀ s : St, cloneLoop exec url fuel s =
      ({ s with clock := s.clock + fuel },
       List.replicate fuel ⟨Cmd.gitClone url, s.fs, false⟩, false) := by
  induction fuel with
  | zero => intro s; rfl
  | succ fuel ih =>
    intro s
    have hinv : invoke exec s (Cmd.gitClone url) =
        ({ s with clock := s.clock + 1 }, false, ⟨Cmd.gitClone url, s.fs, false⟩) := by
      unfold invoke
      rw [hfail s.clock]
      rfl
    calc cloneLoop exec url (fuel + 1) s
        = (let r := invoke exec s (Cmd.gitClone url)
           if r.2.1 then (r.1, [r.2.2], true)
           else
             (let rest := cloneLoop exec url fuel r.1
              (rest.1, r.2.2 :: rest.2.1, rest.2.2))) := rfl
      _ = (let rest := cloneLoop exec url fuel { s with clock := s.clock + 1 }
           (rest.1, (⟨Cmd.gitClone url, s.fs, false⟩ : Ev) :: rest.2.1, rest.2.2)) := by
            rw [hinv]
            rfl
      _ = ({ s with clock := s.clock + (fuel + 1) },
           List.replicate (fuel + 1) ⟨Cmd.gitClone url, s.fs, false⟩, false) := by
            rw [ih]
            simp [List.replicate_succ, Nat.add_assoc, Nat.add_comm]
            omega

/-- Fetch stage with the model directory absent, a registry hit, and every
clone attempt failing: three failed clone invocations are recorded and the
function nevertheless returns the model directory as a success. -/
theorem dllm_allFail_spec (exec : Exec) (s : St) (mi : ModelInfo) (url : String)
    (hdir : pathExists s.fs (s.cwd.dropLast ++ ["models", secondSeg mi.name.toString]) = false)
    (hreg : registryGet s.registry mi.name.toString = some url)
    (hfail : ∀ n, exec n (Cmd.gitClone url) = false) :
    (download_llama2_models exec s mi).result =
      .ok (s.cwd.dropLast ++ ["models", secondSeg mi.name.toString]) ∧
    countCmd (download_llama2_models exec s mi).trace isGitClone = 3 ∧
    countFailed (download_llama2_models exec s mi).trace isGitClone = 3 := by
  have hmdne : ¬ (s.cwd.dropLast ++ ["models"] =
      s.cwd.dropLast ++ ["models", secondSeg mi.name.toString]) :=
    append_arg_ne _ (by simp)
  have hcl := cloneLoop_allFail exec url hfail 3
  cases hm : pathExists s.fs (s.cwd.dropLast ++ ["models"]) with
  | true =>
    simp [download_llama2_models, hm, hdir, hreg, hcl,
      countCmd, countFailed, isGitClone, List.filter_replicate]
  | false =>
    have hdir2 : pathExists (fsAdd s.fs (s.cwd.dropLast ++ ["models"]))
        (s.cwd.dropLast ++ ["models", secondSeg mi.name.toString]) = false := by
      rw [pathExists_fsAdd_ne _ hmdne]; exact hdir
    simp [download_llama2_models, hm, hdir2, hreg, hcl,
      countCmd, countFailed, isGitClone, List.filter_replicate]

theorem fsRemoveFile_of_not_exists {fs : Fs} {p : FPath} (h : pathExists fs p = false) :
    fsRemoveFile fs p = fs := by
  induction fs with
  | nil => rfl
  | cons q rest ih =>
    rw [pathExists_cons] at h
    unfold fsRemoveFile
    split
    · next hq => rw [hq, if_pos rfl] at h; cases h
    · next hq =>
      rw [if_neg hq] at h
      rw [ih h]

theorem append_pair_ne_head (a : List String) {x1 x2 : String} (y1 y2 : String)
    (h : ¬ x1 = x2) : ¬ (a ++ [x1, y1] = a ++ [x2, y2]) := by
  intro hc
  have h2 := List.append_cancel_left hc
  injection h2 with h3 _
  exact h h3

/-- One full run of the converter when `convert.py` is present: the stale
outfile is removed, the tool is invoked once on the pruned filesystem, and
the function returns `Ok` whatever the exit status. -/
theorem convert_run_char (exec : Exec) (s : St) (lc mrd outfile : FPath)
    (hconv : pathExists (fsRemoveFile s.fs outfile) (lc ++ ["convert.py"]) = true) :
    convert_to_ggml exec s lc mrd outfile =
      ⟨.ok (),
       { s with
           fs := if exec s.clock (Cmd.pythonConvert mrd outfile) then
               fsAdd (fsRemoveFile s.fs outfile) outfile
             else fsRemoveFile s.fs outfile,
           clock := s.clock + 1 },
       [⟨Cmd.pythonConvert mrd outfile, fsRemoveFile s.fs outfile,
         exec s.clock (Cmd.pythonConvert mrd outfile)⟩]⟩ := by
  cases hout : pathExists s.fs outfile with
  | true => simp [convert_to_ggml, hout, invoke, hconv, cmdEffect]
  | false =>
    have hrm := fsRemoveFile_of_not_exists hout
    rw [hrm] at hconv
    simp [convert_to_ggml, hout, invoke, hconv, hrm, cmdEffect]

/-- One full run of the quantizer when the `quantize` binary is present. -/
theorem quantize_run_char (exec : Exec) (s : St) (lc model : FPath) (q : QuantInfo)
    (outfile : FPath)
    (hquant : pathExists (fsRemoveFile s.fs outfile) (lc ++ ["quantize"]) = true) :
    quantize_ggml exec s lc model q outfile =
      ⟨.ok (),
       { s with
           fs := if exec s.clock (Cmd.quantizeRun model outfile q.toString) then
               fsAdd (fsRemoveFile s.fs outfile) outfile
             else fsRemoveFile s.fs outfile,
           clock := s.clock + 1 },
       [⟨Cmd.quantizeRun model outfile q.toString, fsRemoveFile s.fs outfile,
         exec s.clock (Cmd.quantizeRun model outfile q.toString)⟩]⟩ := by
  cases hout : pathExists s.fs outfile with
  | true => simp [quantize_ggml, hout, invoke, hquant, cmdEffect]
  | false =>
    have hrm := fsRemoveFile_of_not_exists hout
    rw [hrm] at hquant
    simp [quantize_ggml, hout, invoke, hquant, hrm, cmdEffect]

/-- Claim C9 (confirmed): when the local model repository directory already
exists, `download_llama2_models` returns it successfully without invoking
anything — even for `Llama2Chinese7b`, whose name is absent from the
`MODELS` registry. -/
theorem preexistingModelDirBypassesRegistry (exec : Exec) (s : St)
    (hdir : pathExists s.fs (s.cwd.dropLast ++ ["models", "Chinese-Llama-2-7b"]) = true) :
    (download_llama2_models exec s miChinese).result =
      .ok (s.cwd.dropLast ++ ["models", "Chinese-Llama-2-7b"]) ∧
    (download_llama2_models exec s miChinese).trace = [] ∧
    registryGet MODELS (ModelType.toString ModelType.Llama2Chinese7b) = none := by
  have hseg : secondSeg (ModelInfo.name miChinese).toString = "Chinese-Llama-2-7b" := by decide
  have hr : pathExists s.fs
      (s.cwd.dropLast ++ ["models", secondSeg (ModelInfo.name miChinese).toString]) = true := by
    rw [hseg]; exact hdir
  have h := dllm_skip_parts exec s miChinese hr
  refine ⟨?_, h.2, by decide⟩
  rw [h.1, hseg]

/-- Witness for C9: with the Chinese-Llama-2-7b directory pre-existing the
fetch succeeds although the registry has no entry for it. -/
theorem preexistingModelDirBypassesRegistry_witness :
    (download_llama2_models allOk
        { fs := [svcDir, ["models"], ["models", "Chinese-Llama-2-7b"]], cwd := svcDir,
          registry := MODELS, clock := 0 } miChinese).result =
      Except.ok ["models", "Chinese-Llama-2-7b"] ∧
    (download_llama2_models allOk
        { fs := [svcDir, ["models"], ["models", "Chinese-Llama-2-7b"]], cwd := svcDir,
          registry := MODELS, clock := 0 } miChinese).trace = [] ∧
    registryGet MODELS (ModelType.toString ModelType.Llama2Chinese7b) = none :=
  preexistingModelDirBypassesRegistry allOk
    { fs := [svcDir, ["models"], ["models", "Chinese-Llama-2-7b"]], cwd := svcDir,
      registry := MODELS, clock := 0 } (by decide)

/-- Claim C6 (code bug in the end-to-end scenario): on a clean filesystem
with every external command succeeding, the Llama-2-7b/Q4 request does not
produce an artifact at all: the toolchain stage extracts the archive in the
service's current directory but then tries to build in `../llama.cpp`,
which does not exist, so the request aborts with an io error after exactly
four spawned commands, and fetch, convert and reduce are never invoked. -/
theorem cleanRunFailsBeforeConvert :
    (json_request allOk cleanSt mi7b).result = Except.error (PErr.ioErr "set_current_dir") ∧
    (json_request allOk cleanSt mi7b).trace.length = 4 ∧
    countCmd (json_request allOk cleanSt mi7b).trace isGitClone = 0 ∧
    countCmd (json_request allOk cleanSt mi7b).trace isPythonConvert = 0 ∧
    countCmd (json_request allOk cleanSt mi7b).trace isQuantizeRun = 0 := by
  exact ⟨by decide, by decide, by decide, by decide, by decide⟩

/-- Claim C5 counterexample: a failing conversion and a failing reduction
are both reported to the caller as `Ok`, with the failed invocation
recorded in the trace. -/
theorem nonzeroExitReportedAsOk_cex :
    (convert_to_ggml allFail warmSt ["llama.cpp"] ["models", "Llama-2-7b-hf"]
        ["outputs", "Llama-2-7b-hf-ggml.bin"]).result = Except.ok () ∧
    countFailed (convert_to_ggml allFail warmSt ["llama.cpp"] ["models", "Llama-2-7b-hf"]
        ["outputs", "Llama-2-7b-hf-ggml.bin"]).trace isPythonConvert = 1 ∧
    (quantize_ggml allFail warmSt ["llama.cpp"] ["outputs", "Llama-2-7b-hf-ggml.bin"]
        QuantInfo.Q4 ["outputs", "Llama-2-7b-hf-ggml-q4_0.bin"]).result = Except.ok () ∧
    countFailed (quantize_ggml allFail warmSt ["llama.cpp"] ["outputs", "Llama-2-7b-hf-ggml.bin"]
        QuantInfo.Q4 ["outputs", "Llama-2-7b-hf-ggml-q4_0.bin"]).trace isQuantizeRun = 1 := by
  exact ⟨by decide, by decide, by decide, by decide⟩

/-- Claim C5 as amended: when the conversion or reduction invocation exits
non-zero, `convert_to_ggml` / `quantize_ggml` record the failed invocation
but return `Ok` to the caller; the failure is not surfaced as an error. -/
theorem convertQuantizeSwallowNonzeroExit (exec : Exec) (s t : St)
    (lc mrd outfile lc2 model outfile2 : FPath) (q : QuantInfo)
    (hconv : pathExists s.fs (lc ++ ["convert.py"]) = true)
    (hne : ¬ (lc ++ ["convert.py"]) = outfile)
    (hfailc : ∀ n d o, exec n (Cmd.pythonConvert d o) = false)
    (hquant : pathExists t.fs (lc2 ++ ["quantize"]) = true)
    (hne2 : ¬ (lc2 ++ ["quantize"]) = outfile2)
    (hfailq : ∀ n m o tag, exec n (Cmd.quantizeRun m o tag) = false) :
    (convert_to_ggml exec s lc mrd outfile).result = .ok () ∧
    countFailed (convert_to_ggml exec s lc mrd outfile).trace isPythonConvert = 1 ∧
    (quantize_ggml exec t lc2 model q outfile2).result = .ok () ∧
    countFailed (quantize_ggml exec t lc2 model q outfile2).trace isQuantizeRun = 1 := by
  have hc2 : pathExists (fsRemoveFile s.fs outfile) (lc ++ ["convert.py"]) = true := by
    rw [pathExists_fsRemoveFile_ne _ hne]; exact hconv
  have hq2 : pathExists (fsRemoveFile t.fs outfile2) (lc2 ++ ["quantize"]) = true := by
    rw [pathExists_fsRemoveFile_ne _ hne2]; exact hquant
  rw [convert_run_char exec s lc mrd outfile hc2,
    quantize_run_char exec t lc2 model q outfile2 hq2]
  simp [countFailed, isPythonConvert, isQuantizeRun, hfailc, hfailq]

/-- Witness for the amended C5 at a concrete input. -/
theorem convertQuantizeSwallowNonzeroExit_witness :
    (convert_to_ggml allFail warmSt ["llama.cpp"] ["models", "Llama-2-7b-hf"]
        ["outputs", "out.bin"]).result = Except.ok () ∧
    countFailed (convert_to_ggml allFail warmSt ["llama.cpp"] ["models", "Llama-2-7b-hf"]
        ["outputs", "out.bin"]).trace isPythonConvert = 1 ∧
    (quantize_ggml allFail warmSt ["llama.cpp"] ["outputs", "out.bin"]
        QuantInfo.Q4 ["outputs", "q.bin"]).result = Except.ok () ∧
    countFailed (quantize_ggml allFail warmSt ["llama.cpp"] ["outputs", "out.bin"]
        QuantInfo.Q4 ["outputs", "q.bin"]).trace isQuantizeRun = 1 :=
  convertQuantizeSwallowNonzeroExit allFail warmSt warmSt ["llama.cpp"]
    ["models", "Llama-2-7b-hf"] ["outputs", "out.bin"] ["llama.cpp"]
    ["outputs", "out.bin"] ["outputs", "q.bin"] QuantInfo.Q4
    (by decide) (by decide) (fun _ _ _ => rfl) (by decide) (by decide) (fun _ _ _ _ => rfl)

/-- Claim C7 (confirmed): when the toolchain directory, the built quantize
binary, and the model repository directory all exist already, neither
`download_and_build_llama_cpp` nor `download_llama2_models` invokes any
external process; both return their directory successfully. -/
theorem presentArtifactsSkipAllProcesses (exec : Exec) (s : St) (mi : ModelInfo)
    (hl : pathExists s.fs (s.cwd.dropLast ++ ["llama.cpp"]) = true)
    (hq : pathExists s.fs (s.cwd.dropLast ++ ["llama.cpp", "quantize"]) = true)
    (hr : pathExists s.fs (s.cwd.dropLast ++ ["models", secondSeg mi.name.toString]) = true) :
    (download_and_build_llama_cpp exec s).result = .ok (s.cwd.dropLast ++ ["llama.cpp"]) ∧
    (download_and_build_llama_cpp exec s).trace = [] ∧
    (download_llama2_models exec s mi).result =
      .ok (s.cwd.dropLast ++ ["models", secondSeg mi.name.toString]) ∧
    (download_llama2_models exec s mi).trace = [] := by
  have h1 := dandb_skip exec s hl hq
  have h2 := dllm_skip_parts exec s mi hr
  rw [h1]
  exact ⟨rfl, rfl, h2.1, h2.2⟩

/-- Witness for C7 on the warm filesystem. -/
theorem presentArtifactsSkipAllProcesses_witness :
    (download_and_build_llama_cpp allOk warmSt).result = Except.ok ["llama.cpp"] ∧
    (download_and_build_llama_cpp allOk warmSt).trace = [] ∧
    (download_llama2_models allOk warmSt mi7b).result =
      Except.ok ["models", "Llama-2-7b-hf"] ∧
    (download_llama2_models allOk warmSt mi7b).trace = [] :=
  presentArtifactsSkipAllProcesses allOk warmSt mi7b (by decide) (by decide) (by decide)

/-- Claim C8 (confirmed): whatever the state and however the external tool
behaves, at the moment `convert_to_ggml` or `quantize_ggml` invokes its
tool the output file is absent from the filesystem: a pre-existing outfile
is removed before the invocation. -/
theorem outfileAbsentAtInvocation (exec : Exec) (s : St)
    (lc mrd outfile model outfile2 : FPath) (q : QuantInfo) :
    ((convert_to_ggml exec s lc mrd outfile).trace.all
      (fun e => !(pathExists e.fsAt outfile))) = true ∧
    ((quantize_ggml exec s lc model q outfile2).trace.all
      (fun e => !(pathExists e.fsAt outfile2))) = true := by
  constructor
  · cases hout : pathExists s.fs outfile with
    | true =>
      cases hconv : pathExists (fsRemoveFile s.fs outfile) (lc ++ ["convert.py"]) with
      | true => simp [convert_to_ggml, hout, hconv, invoke, pathExists_fsRemoveFile_self]
      | false => simp [convert_to_ggml, hout, hconv]
    | false =>
      cases hconv : pathExists s.fs (lc ++ ["convert.py"]) with
      | true => simp [convert_to_ggml, hout, hconv, invoke]
      | false => simp [convert_to_ggml, hout, hconv]
  · cases hout : pathExists s.fs outfile2 with
    | true =>
      cases hquant : pathExists (fsRemoveFile s.fs outfile2) (lc ++ ["quantize"]) with
      | true => simp [quantize_ggml, hout, hquant, invoke, pathExists_fsRemoveFile_self]
      | false => simp [quantize_ggml, hout, hquant]
    | false =>
      cases hquant : pathExists s.fs (lc ++ ["quantize"]) with
      | true => simp [quantize_ggml, hout, hquant, invoke]
      | false => simp [quantize_ggml, hout, hquant]

/-- Claim C3 (confirmed): for a request whose local model directory is
absent and whose registry lookup succeeds, if the external clone command
fails on every attempt, `download_llama2_models` performs exactly 3 clone
attempts before giving up. -/
theorem cloneRetriedExactlyThreeTimes (exec : Exec) (s : St) (mi : ModelInfo) (url : String)
    (hdir : pathExists s.fs (s.cwd.dropLast ++ ["models", secondSeg mi.name.toString]) = false)
    (hreg : registryGet s.registry mi.name.toString = some url)
    (hfail : ∀ n, exec n (Cmd.gitClone url) = false) :
    countCmd (download_llama2_models exec s mi).trace isGitClone = 3 :=
  (dllm_allFail_spec exec s mi url hdir hreg hfail).2.1

/-- Witness for C3: the always-failing oracle on a clean filesystem makes
exactly three clone attempts for the Llama-2-7b request. -/
theorem cloneRetriedExactlyThreeTimes_witness :
    countCmd (download_llama2_models allFail cleanSt mi7b).trace isGitClone = 3 :=
  cloneRetriedExactlyThreeTimes allFail cleanSt mi7b
    "https://huggingface.co/meta-llama/Llama-2-7b-hf" (by decide) (by decide) (fun _ => rfl)

/-- Claim C1 counterexample: with every clone attempt failing (and three
failed attempts recorded), `download_llama2_models` returns a success
value — the model directory path — rather than any failure. -/
theorem downloadModelsNoFetchFailed_cex :
    (download_llama2_models allFail cleanSt mi7b).result =
      Except.ok ["models", "Llama-2-7b-hf"] ∧
    countFailed (download_llama2_models allFail cleanSt mi7b).trace isGitClone = 3 := by
  exact ⟨by decide, by decide⟩

/-- Claim C1 as amended: if every retrieval attempt fails,
`download_llama2_models` records exactly 3 failed clone attempts and then
still returns the model directory path as a success (`Ok`) value; no
fetch-failure error is surfaced to the caller. -/
theorem downloadModelsAllCloneFailsReturnsOk (exec : Exec) (s : St) (mi : ModelInfo)
    (url : String)
    (hdir : pathExists s.fs (s.cwd.dropLast ++ ["models", secondSeg mi.name.toString]) = false)
    (hreg : registryGet s.registry mi.name.toString = some url)
    (hfail : ∀ n, exec n (Cmd.gitClone url) = false) :
    (download_llama2_models exec s mi).result =
      .ok (s.cwd.dropLast ++ ["models", secondSeg mi.name.toString]) ∧
    countFailed (download_llama2_models exec s mi).trace isGitClone = 3 :=
  ⟨(dllm_allFail_spec exec s mi url hdir hreg hfail).1,
   (dllm_allFail_spec exec s mi url hdir hreg hfail).2.2⟩

/-- Witness for the amended C1 at a concrete input. -/
theorem downloadModelsAllCloneFailsReturnsOk_witness :
    (download_llama2_models allFail cleanSt mi7b).result =
      Except.ok ["models", "Llama-2-7b-hf"] ∧
    countFailed (download_llama2_models allFail cleanSt mi7b).trace isGitClone = 3 :=
  downloadModelsAllCloneFailsReturnsOk allFail cleanSt mi7b
    "https://huggingface.co/meta-llama/Llama-2-7b-hf" (by decide) (by decide) (fun _ => rfl)

/-- Claim C4 counterexample: on a clean filesystem, the request for the
model that is missing from the registry is NOT rejected before any stage
runs: the toolchain stage spawns four external commands (starting with
`wget`) before any registry lookup, and the request then fails with an io
error, not with the registry-miss error. -/
theorem unknownModelAfterToolchainProcesses_cex :
    (json_request allOk cleanSt miChinese).result = Except.error (PErr.ioErr "set_current_dir") ∧
    (json_request allOk cleanSt miChinese).trace.length = 4 ∧
    countCmd (json_request allOk cleanSt miChinese).trace isWget = 1 := by
  exact ⟨by decide, by decide, by decide⟩

/-- Claim C4 as amended: a request whose sourceName does not resolve in the
registry (and whose local model directory is absent) fails with the
registry-miss error inside the fetch stage, and the fetch stage itself
invokes no external process; the toolchain stage, however, runs before this
check. -/
theorem registryMissRejectedInFetchStage (exec : Exec) (s : St) (mi : ModelInfo)
    (hdir : pathExists s.fs (s.cwd.dropLast ++ ["models", secondSeg mi.name.toString]) = false)
    (hreg : registryGet s.registry mi.name.toString = none) :
    (download_llama2_models exec s mi).result = .error (PErr.registryMiss mi.name.toString) ∧
    (download_llama2_models exec s mi).trace = [] := by
  have hmdne : ¬ (s.cwd.dropLast ++ ["models"] =
      s.cwd.dropLast ++ ["models", secondSeg mi.name.toString]) :=
    append_arg_ne _ (by simp)
  cases hm : pathExists s.fs (s.cwd.dropLast ++ ["models"]) with
  | true => simp [download_llama2_models, hm, hdir, hreg]
  | false =>
    have hdir2 : pathExists (fsAdd s.fs (s.cwd.dropLast ++ ["models"]))
        (s.cwd.dropLast ++ ["models", secondSeg mi.name.toString]) = false := by
      rw [pathExists_fsAdd_ne _ hmdne]; exact hdir
    simp [download_llama2_models, hm, hdir2, hreg]

/-- Witness for the amended C4 at a concrete input. -/
theorem registryMissRejectedInFetchStage_witness :
    (download_llama2_models allOk cleanSt miChinese).result =
      Except.error (PErr.registryMiss "LinkSoul/Chinese-Llama-2-7b") ∧
    (download_llama2_models allOk cleanSt miChinese).trace = [] :=
  registryMissRejectedInFetchStage allOk cleanSt miChinese (by decide) (by decide)

theorem invoke_registry (exec : Exec) (s : St) (c : Cmd) :
    (invoke exec s c).1.registry = s.registry := rfl

theorem cloneLoop_registry (exec : Exec) (url : String) (fuel : Nat) :
    ∀ s : St, (cloneLoop exec url fuel s).1.registry = s.registry := by
  induction fuel with
  | zero => intro s; rfl
  | succ fuel ih =>
    intro s
    have hstep : cloneLoop exec url (fuel + 1) s =
        (if (invoke exec s (Cmd.gitClone url)).2.1 then
           ((invoke exec s (Cmd.gitClone url)).1, [(invoke exec s (Cmd.gitClone url)).2.2], true)
         else
           ((cloneLoop exec url fuel (invoke exec s (Cmd.gitClone url)).1).1,
            (invoke exec s (Cmd.gitClone url)).2.2 ::
              (cloneLoop exec url fuel (invoke exec s (Cmd.gitClone url)).1).2.1,
            (cloneLoop exec url fuel (invoke exec s (Cmd.gitClone url)).1).2.2)) := rfl
    rw [hstep]
    split
    · rfl
    · exact ih _

theorem dandb_registry (exec : Exec) (s : St) :
    (download_and_build_llama_cpp exec s).state.registry = s.registry := by
  simp only [download_and_build_llama_cpp]
  repeat' split
  all_goals rfl

theorem dllm_registry (exec : Exec) (s : St) (mi : ModelInfo) :
    (download_llama2_models exec s mi).state.registry = s.registry := by
  simp only [download_llama2_models]
  repeat' split
  all_goals try rfl
  all_goals exact cloneLoop_registry exec _ 3 _

theorem convert_registry (exec : Exec) (s : St) (lc mrd outfile : FPath) :
    (convert_to_ggml exec s lc mrd outfile).state.registry = s.registry := by
  simp only [convert_to_ggml]
  repeat' split
  all_goals rfl

theorem quantize_registry (exec : Exec) (s : St) (lc model : FPath) (q : QuantInfo)
    (outfile : FPath) :
    (quantize_ggml exec s lc model q outfile).state.registry = s.registry := by
  simp only [quantize_ggml]
  repeat' split
  all_goals rfl

theorem json_registry (exec : Exec) (s : St) (mi : ModelInfo) :
    (json_request exec s mi).state.registry = s.registry := by
  rcases hT : download_and_build_llama_cpp exec s with ⟨resT, sT, trT⟩
  have h1 : sT.registry = s.registry := by
    have h0 := dandb_registry exec s
    rw [hT] at h0
    exact h0
  simp only [json_request, hT]
  cases resT with
  | error e => exact h1
  | ok lc =>
    rcases hF : download_llama2_models exec sT mi with ⟨resF, sF, trF⟩
    have h2 : sF.registry = s.registry := by
      have h0 := dllm_registry exec sT mi
      rw [hF] at h0
      exact h0.trans h1
    simp only [hF]
    cases resF with
    | error e => exact h2
    | ok mrd =>
      simp only [List.append_assoc, List.singleton_append]
      split_ifs
      · rcases hC : convert_to_ggml exec sF lc mrd
            (List.dropLast sF.cwd ++
              ["outputs", secondSeg mi.name.toString ++ "-ggml." ++ "bin"]) with ⟨resC, sC, trC⟩
        have h3 : sC.registry = s.registry := by
          have h5 := convert_registry exec sF lc mrd
            (List.dropLast sF.cwd ++
              ["outputs", secondSeg mi.name.toString ++ "-ggml." ++ "bin"])
          rw [hC] at h5
          exact h5.trans h2
        simp only [hC]
        cases resC with
        | error e => exact h3
        | ok u =>
          rcases hQ : quantize_ggml exec sC lc
              (List.dropLast sF.cwd ++
                ["outputs", secondSeg mi.name.toString ++ "-ggml." ++ "bin"]) mi.quant_info
              (List.dropLast sF.cwd ++
                ["outputs",
                  secondSeg mi.name.toString ++ "-ggml-" ++ mi.quant_info.toString ++ "." ++ "bin"])
              with ⟨resQ, sQ, trQ⟩
          have h4 : sQ.registry = s.registry := by
            have h6 := quantize_registry exec sC lc
              (List.dropLast sF.cwd ++
                ["outputs", secondSeg mi.name.toString ++ "-ggml." ++ "bin"]) mi.quant_info
              (List.dropLast sF.cwd ++
                ["outputs",
                  secondSeg mi.name.toString ++ "-ggml-" ++ mi.quant_info.toString ++ "." ++ "bin"])
            rw [hQ] at h6
            exact h6.trans h3
          simp only [hQ]
          cases resQ with
          | error e => exact h4
          | ok v => exact h4
      · rcases hC : convert_to_ggml exec
            { sF with fs := fsAdd sF.fs (List.dropLast sF.cwd ++ ["outputs"]) } lc mrd
            (List.dropLast sF.cwd ++
              ["outputs", secondSeg mi.name.toString ++ "-ggml." ++ "bin"]) with ⟨resC, sC, trC⟩
        have h3 : sC.registry = s.registry := by
          have h5 := convert_registry exec
            { sF with fs := fsAdd sF.fs (List.dropLast sF.cwd ++ ["outputs"]) } lc mrd
            (List.dropLast sF.cwd ++
              ["outputs", secondSeg mi.name.toString ++ "-ggml." ++ "bin"])
          rw [hC] at h5
          exact h5.trans h2
        simp only [hC]
        cases resC with
        | error e => exact h3
        | ok u =>
          rcases hQ : quantize_ggml exec sC lc
              (List.dropLast sF.cwd ++
                ["outputs", secondSeg mi.name.toString ++ "-ggml." ++ "bin"]) mi.quant_info
              (List.dropLast sF.cwd ++
                ["outputs",
                  secondSeg mi.name.toString ++ "-ggml-" ++ mi.quant_info.toString ++ "." ++ "bin"])
              with ⟨resQ, sQ, trQ⟩
          have h4 : sQ.registry = s.registry := by
            have h6 := quantize_registry exec sC lc
              (List.dropLast sF.cwd ++
                ["outputs", secondSeg mi.name.toString ++ "-ggml." ++ "bin"]) mi.quant_info
              (List.dropLast sF.cwd ++
                ["outputs",
                  secondSeg mi.name.toString ++ "-ggml-" ++ mi.quant_info.toString ++ "." ++ "bin"])
            rw [hQ] at h6
            exact h6.trans h3
          simp only [hQ]
          cases resQ with
          | error e => exact h4
          | ok v => exact h4

/-- Claim C10 (confirmed): the registry component of the state is left
unchanged by every operation of the pipeline, on every input and in every
outcome: after initialization only reads occur. -/
theorem registryReadOnly (exec : Exec) (s : St) (mi : ModelInfo)
    (lc mrd outfile model outfile2 : FPath) (q : QuantInfo) :
    (download_and_build_llama_cpp exec s).state.registry = s.registry ∧
    (download_llama2_models exec s mi).state.registry = s.registry ∧
    (convert_to_ggml exec s lc mrd outfile).state.registry = s.registry ∧
    (quantize_ggml exec s lc model q outfile2).state.registry = s.registry ∧
    (json_request exec s mi).state.registry = s.registry :=
  ⟨dandb_registry exec s, dllm_registry exec s mi, convert_registry exec s lc mrd outfile,
   quantize_registry exec s lc model q outfile2, json_registry exec s mi⟩

/-- Claim C2 as amended: when the convert invocation exits non-zero,
`convert_to_ggml` still returns `Ok`, so the reduce stage (`quantize_ggml`)
IS invoked for the same request: the request trace contains the failed
convert invocation followed by exactly one quantize invocation. -/
theorem quantizeInvokedDespiteConvertFailure (exec : Exec) (s : St) (mi : ModelInfo)
    (hl : pathExists s.fs (s.cwd.dropLast ++ ["llama.cpp"]) = true)
    (hq : pathExists s.fs (s.cwd.dropLast ++ ["llama.cpp", "quantize"]) = true)
    (hc : pathExists s.fs (s.cwd.dropLast ++ ["llama.cpp", "convert.py"]) = true)
    (hm : pathExists s.fs (s.cwd.dropLast ++ ["models"]) = true)
    (hr : pathExists s.fs (s.cwd.dropLast ++ ["models", secondSeg mi.name.toString]) = true)
    (ho : pathExists s.fs (s.cwd.dropLast ++ ["outputs"]) = true)
    (hfail : ∀ n d o, exec n (Cmd.pythonConvert d o) = false) :
    countFailed (json_request exec s mi).trace isPythonConvert = 1 ∧
    countCmd (json_request exec s mi).trace isQuantizeRun = 1 := by
  have hT := dandb_skip exec s hl hq
  have hF := dllm_skip exec s mi hm hr
  simp only [json_request, hT, hF, ho, eq_self_iff_true, if_true]
  have hneC : ¬ ((s.cwd.dropLast ++ ["llama.cpp"]) ++ ["convert.py"] =
      (s.cwd.dropLast ++ ["outputs"]) ++ [secondSeg mi.name.toString ++ "-ggml." ++ "bin"]) :=
    append_pair_ne_fst _ (by decide)
  have hconv2 : pathExists
      (fsRemoveFile s.fs
        (s.cwd.dropLast ++ ["outputs"] ++ [secondSeg mi.name.toString ++ "-ggml." ++ "bin"]))
      ((s.cwd.dropLast ++ ["llama.cpp"]) ++ ["convert.py"]) = true := by
    rw [pathExists_fsRemoveFile_ne _ hneC, List.append_assoc]
    exact hc
  have hchar := convert_run_char exec s (s.cwd.dropLast ++ ["llama.cpp"])
    (s.cwd.dropLast ++ ["models", secondSeg mi.name.toString])
    (s.cwd.dropLast ++ ["outputs"] ++ [secondSeg mi.name.toString ++ "-ggml." ++ "bin"])
    hconv2
  rw [hfail s.clock] at hchar
  simp only [Bool.false_eq_true, if_false] at hchar
  have hneQ1 : ¬ ((s.cwd.dropLast ++ ["llama.cpp"]) ++ ["quantize"] =
      (s.cwd.dropLast ++ ["outputs"]) ++
        [secondSeg mi.name.toString ++ "-ggml-" ++ mi.quant_info.toString ++ "." ++ "bin"]) :=
    append_pair_ne_fst _ (by decide)
  have hneQ2 : ¬ ((s.cwd.dropLast ++ ["llama.cpp"]) ++ ["quantize"] =
      (s.cwd.dropLast ++ ["outputs"]) ++ [secondSeg mi.name.toString ++ "-ggml." ++ "bin"]) :=
    append_pair_ne_fst _ (by decide)
  have hquant2 : pathExists
      (fsRemoveFile
        (fsRemoveFile s.fs
          (s.cwd.dropLast ++ ["outputs"] ++ [secondSeg mi.name.toString ++ "-ggml." ++ "bin"]))
        (s.cwd.dropLast ++ ["outputs"] ++
          [secondSeg mi.name.toString ++ "-ggml-" ++ mi.quant_info.toString ++ "." ++ "bin"]))
      ((s.cwd.dropLast ++ ["llama.cpp"]) ++ ["quantize"]) = true := by
    rw [pathExists_fsRemoveFile_ne _ hneQ1, pathExists_fsRemoveFile_ne _ hneQ2,
      List.append_assoc]
    exact hq
  have hchar2 := quantize_run_char exec
    { s with
        fs := fsRemoveFile s.fs
          (s.cwd.dropLast ++ ["outputs"] ++ [secondSeg mi.name.toString ++ "-ggml." ++ "bin"]),
        clock := s.clock + 1 }
    (s.cwd.dropLast ++ ["llama.cpp"])
    (s.cwd.dropLast ++ ["outputs"] ++ [secondSeg mi.name.toString ++ "-ggml." ++ "bin"])
    mi.quant_info
    (s.cwd.dropLast ++ ["outputs"] ++
      [secondSeg mi.name.toString ++ "-ggml-" ++ mi.quant_info.toString ++ "." ++ "bin"])
    hquant2
  simp only [hchar, hchar2]
  simp [countFailed, countCmd, isPythonConvert, isQuantizeRun]

/-- Witness for the amended C2: on the warm filesystem with a convert tool
that always exits non-zero, the trace records the failed convert and one
quantize invocation. -/
theorem quantizeInvokedDespiteConvertFailure_witness :
    countFailed (json_request convertFails warmSt mi7b).trace isPythonConvert = 1 ∧
    countCmd (json_request convertFails warmSt mi7b).trace isQuantizeRun = 1 :=
  quantizeInvokedDespiteConvertFailure convertFails warmSt mi7b (by decide) (by decide)
    (by decide) (by decide) (by decide) (by decide) (fun _ _ _ => rfl)

/-- Claim C2 counterexample: a run in which the convert stage's invocation
returned non-zero and the reduce stage was nevertheless invoked once. -/
theorem quantizeRunsAfterConvertFailure_cex :
    countFailed (json_request convertFails warmSt mi7b).trace isPythonConvert = 1 ∧
    countCmd (json_request convertFails warmSt mi7b).trace isQuantizeRun = 1 ∧
    (json_request convertFails warmSt mi7b).result =
      Except.ok ⟨"outputs/Llama-2-7b-hf-ggml-q4_0.bin"⟩ := by
  exact ⟨by decide, by decide, by decide⟩

end GgmlConverter
